import Mathlib

/-!
Verification of the github-topics-trending pipeline.

The development shallowly embeds the Python sources:
* `src/ai_summarizer.py` — AI summarisation with a degraded fallback path;
* `src/telegram_sender.py` — the Telegram notifier;
* `src/web_generator.py` — the static site generator;
* `src/main.py` — the pipeline driver (modelled as a step machine whose
  collaborator calls receive their outcomes from an explicit `World`).

Components of the repository that are referenced but whose sources are not
available (`src/config.py`, `src/database.py`, `src/trend_analyzer.py`) are
modelled from the specification; each such definition carries a doc comment
starting with "Modelled from the spec:".
-/

/-- Python-level JSON value: the result of `json.loads` in `ai_summarizer.py`
and of `response.json()` in `telegram_sender.py`. -/
inductive JValue where
  | null
  | bool (b : Bool)
  | num (n : Int)
  | str (s : String)
  | arr (elems : List JValue)
  | obj (fields : List (String × JValue))

/-- Python truthiness `bool(x)` of a JSON value. -/
def JValue.truthy : JValue → Bool
  | .null => false
  | .bool b => b
  | .num n => n != 0
  | .str s => s != ""
  | .arr xs => !xs.isEmpty
  | .obj fs => !fs.isEmpty

mutual

/-- Python `repr` of a JSON value (the rendering used for elements inside
containers). -/
def JValue.pyRepr : JValue → String
  | .null => "None"
  | .bool true => "True"
  | .bool false => "False"
  | .num n => toString n
  | .str s => "\x27" ++ s ++ "\x27"
  | .arr xs => "[" ++ pyReprElems xs ++ "]"
  | .obj fs => "\x7b" ++ pyReprFields fs ++ "\x7d"

/-- Comma-separated `repr` of a list of JSON values. -/
def pyReprElems : List JValue → String
  | [] => ""
  | [x] => JValue.pyRepr x
  | x :: y :: xs => JValue.pyRepr x ++ ", " ++ pyReprElems (y :: xs)

/-- Comma-separated `repr` of the fields of a JSON object. -/
def pyReprFields : List (String × JValue) → String
  | [] => ""
  | [(k, v)] => "\x27" ++ k ++ "\x27: " ++ JValue.pyRepr v
  | (k, v) :: f :: fs =>
    "\x27" ++ k ++ "\x27: " ++ JValue.pyRepr v ++ ", " ++ pyReprFields (f :: fs)

end

/-- Python `str` of a JSON value (f-string interpolation). -/
def JValue.pyStr : JValue → String
  | .str s => s
  | v => v.pyRepr

/-- Python `a or b` where `a` is an optional string (`None` or `""` are falsy)
and `b` is optional too. -/
def pyOrOpt (a : Option String) (b : Option String) : Option String :=
  match a with
  | some s => if s == "" then b else some s
  | none => b

/-- Python `a or b` where `a` is an optional string and `b` a plain string. -/
def pyOrStr (a : Option String) (b : String) : String :=
  match a with
  | some s => if s == "" then b else s
  | none => b

/-- Python `a or b` on two strings. -/
def pyOrS (a b : String) : String := if a == "" then b else a

/-- A repository record as consumed by `AISummarizer` (the github fetcher's
output, possibly enriched with a readme summary).  Fields the code reads via
`dict.get(k, default)` carry the default for an absent key baked in; the two
keys for which the code distinguishes a missing value (`repo_name`, `name`)
are `Option`s. -/
structure RepoIn where
  repo_name : Option String
  name : Option String
  description : String
  language : String
  topics : List String
  readme_summary : String
  owner : String
  url : String
deriving DecidableEq

/-- Display data for one category: the values of `config.CATEGORIES`, as read
by `web_generator.py` (`info['name']`, `info['icon']`, `info['description']`)
and `ai_summarizer.py` (`info["name"]`). -/
structure CategoryInfo where
  name : String
  icon : String
  description : String
deriving DecidableEq

/-- Modelled from the spec: `src/config.py` is not among the available
sources.  The fixed category set with the sentinel "other" category (spec §3
invariant on `RepositoryDetail.category`); the key "tool" appears in
`ai_summarizer.py`'s prompt example, "plugin" in `web_generator.py`'s
navigation, and "other" in both fallback paths.  Membership beyond those keys
is a modelling choice. -/
def CATEGORIES : List (String × CategoryInfo) := [
  ("ai", ⟨"AI 应用", "🤖", "AI applications and agents"⟩),
  ("tool", ⟨"工具", "🔧", "Developer tools"⟩),
  ("plugin", ⟨"插件", "🔌", "Plugins and extensions"⟩),
  ("framework", ⟨"框架", "🏗️", "Frameworks"⟩),
  ("library", ⟨"库", "📚", "Libraries"⟩),
  ("other", ⟨"其他", "📦", "Other projects"⟩)
]

/-- Category key to display name, as built by `get_category_list` in
`ai_summarizer.py` (`{key: info["name"] for key, info in CATEGORIES.items()}`). -/
def REPO_CATEGORIES : List (String × String) :=
  CATEGORIES.map (fun p => (p.1, p.2.name))

/-- The keys of the fixed category set. -/
def categoryKeys : List String := CATEGORIES.map Prod.fst

/-- Key presence in a Python-dict-shaped record. -/
def hasKey (rec : List (String × JValue)) (k : String) : Bool :=
  (rec.lookup k).isSome

/-- The per-repository record built by `_fallback_summaries`
(`ai_summarizer.py` lines 249-275).  The rule-based category inference is a
stub in the source: `category = "other"` with the rules commented out, so the
category is always "other". -/
def fallbackRecord (repo : RepoIn) : List (String × JValue) :=
  let repo_name := pyOrStr repo.repo_name (repo.name.getD "unknown")
  let description := repo.description
  let category := "other"
  [
    ("repo_name", .str repo_name),
    ("summary", .str (if description.length > 50
                      then description.take 50 ++ "..."
                      else description)),
    ("description", .str description),
    ("category", .str category),
    ("category_zh", .str ((REPO_CATEGORIES.lookup category).getD "其他")),
    ("fallback", .bool true)
  ]

/-- `_fallback_summaries`: one fallback record per input repository, in input
order. -/
def fallback_summaries (repos : List RepoIn) : List (List (String × JValue)) :=
  repos.map fallbackRecord

/-- The key under which `_parse_batch_response`'s `original_map` stores a
repository: `r.get("repo_name") or r.get("name")`. -/
def build_key (r : RepoIn) : Option String := pyOrOpt r.repo_name r.name

/-- `original_map.get(repo_name, {})`: the dict comprehension lets later
repositories overwrite earlier ones with the same key, and only a string
`repo_name` can match (the map's keys are strings or `None`). -/
def findOriginal (repos : List RepoIn) (rn : JValue) : Option RepoIn :=
  match rn with
  | .str s => repos.reverse.find? (fun r => build_key r == some s)
  | _ => none

/-- The `validated_result` dict built for one parsed result object in
`_parse_batch_response` (`ai_summarizer.py` lines 223-237): the response
fields with their `dict.get` defaults, the raw-metadata fields filled from the
matching original repository (or the empty dict's defaults when there is no
match). -/
def validatedRecord (original_repos : List RepoIn)
    (fields : List (String × JValue)) : List (String × JValue) :=
  let rn := (fields.lookup "repo_name").getD .null
  let original := findOriginal original_repos rn
  [
    ("repo_name", rn),
    ("summary", (fields.lookup "summary").getD (.str (rn.pyStr ++ " 项目"))),
    ("description", (fields.lookup "description").getD (.str "")),
    ("use_case", (fields.lookup "use_case").getD (.str "")),
    ("solves", (fields.lookup "solves").getD (.arr [])),
    ("category", (fields.lookup "category").getD (.str "other")),
    ("category_zh", (fields.lookup "category_zh").getD
      (.str ((REPO_CATEGORIES.lookup "other").getD "其他"))),
    ("tech_stack", (fields.lookup "tech_stack").getD (.arr [])),
    ("language", .str ((original.map RepoIn.language).getD "")),
    ("topics", .arr (((original.map RepoIn.topics).getD []).map .str)),
    ("readme_summary", .str ((original.map RepoIn.readme_summary).getD "")),
    ("owner", .str ((original.map RepoIn.owner).getD "")),
    ("url", .str ((original.map RepoIn.url).getD ""))
  ]

/-- One iteration of the validation loop in `_parse_batch_response`
(`ai_summarizer.py` lines 210-239): non-dict results and results with a falsy
`repo_name` are skipped; otherwise the validated record is built. -/
def validateOne (original_repos : List RepoIn) (result : JValue) :
    Option (List (String × JValue)) :=
  match result with
  | .obj fields =>
    if ((fields.lookup "repo_name").getD .null).truthy then
      some (validatedRecord original_repos fields)
    else none
  | _ => none

/-- The markdown-fence cleanup at the top of `_parse_batch_response`. -/
def cleanResponseText (t : String) : String :=
  let t1 := t.trim
  let t2 := if t1.startsWith "```json" then t1.drop 7
            else if t1.startsWith "```" then t1.drop 3
            else t1
  let t3 := if t2.endsWith "```" then t2.take (t2.length - 3) else t2
  t3.trim

/-- `_parse_batch_response` (`ai_summarizer.py` lines 184-247).  `json.loads`
is passed explicitly; `jsonLoads` returns `none` exactly when `json.loads`
would raise `JSONDecodeError`, in which case the fallback records are
returned.  A parsed non-list value is wrapped in a singleton list. -/
def parse_batch_response (jsonLoads : String → Option JValue) (result_text : String)
    (original_repos : List RepoIn) : List (List (String × JValue)) :=
  match jsonLoads (cleanResponseText result_text) with
  | none => fallback_summaries original_repos
  | some v =>
    let results := match v with
      | .arr xs => xs
      | w => [w]
    results.filterMap (validateOne original_repos)

/-- Outcome of the chat-completions API call in `summarize_and_classify`:
either an exception or a response text. -/
inductive ApiOutcome where
  | raises
  | responds (text : String)

/-- `summarize_and_classify` (`ai_summarizer.py` lines 54-98): an empty input
short-circuits to `[]`; an exception from the API call degrades to the
fallback records; otherwise the response text is parsed. -/
def summarize_and_classify (jsonLoads : String → Option JValue) (repos : List RepoIn)
    (api : ApiOutcome) : List (List (String × JValue)) :=
  if repos.isEmpty then []
  else
    match api with
    | .raises => fallback_summaries repos
    | .responds text => parse_batch_response jsonLoads text repos

/-! ## Snapshot Store and Trend Computation Engine

`src/database.py` and `src/trend_analyzer.py` are not among the available
sources; the store and the engine are modelled from the specification (§4.1,
§4.2).  Dates are day numbers (`Nat`). -/

/-- A stored `RepositorySnapshotEntry` row (spec §3): one repository's state
on one day, with its 1-based rank. -/
structure SnapEntry where
  repo_name : String
  stars : Int
  rank : Nat
deriving DecidableEq

/-- Modelled from the spec: the Snapshot Store's persisted state (spec §6) —
snapshot rows grouped by date, and the notification log of
`(repo_name, notified_date)` pairs. -/
structure Store where
  snapshots : List (Nat × List SnapEntry)
  notifications : List (String × Nat)
deriving DecidableEq

/-- Modelled from the spec (§4.1): `get_notified_repo_names(since_date)`
returns the set of repo names with a notification record dated on or after
`since_date`. -/
def get_notified_repo_names (s : Store) (since : Nat) : List String :=
  ((s.notifications.filter (fun p => since ≤ p.2)).map Prod.fst).eraseDups

/-- Most recent stored snapshot strictly earlier than `before`, together with
its date;  `none` when no prior snapshot exists. -/
def prev_snapshot_with_date (s : Store) (before : Nat) :
    Option (Nat × List SnapEntry) :=
  (s.snapshots.filter (fun p => p.1 < before)).foldl
    (fun acc p =>
      match acc with
      | none => some p
      | some q => if q.1 < p.1 then some p else some q)
    none

/-- Modelled from the spec (§4.1): `get_previous_snapshot(before_date)` — the
most recent snapshot strictly earlier than `before_date`, empty (never an
error) when no prior snapshot exists. -/
def get_previous_snapshot (s : Store) (before : Nat) : List SnapEntry :=
  ((prev_snapshot_with_date s before).map Prod.snd).getD []

/-- List of `(index, element)` pairs starting at `i` (Python `enumerate(l, i)`). -/
def enumFrom (i : Nat) : List α → List (Nat × α)
  | [] => []
  | x :: xs => (i, x) :: enumFrom (i + 1) xs

/-- Insertion into a list sorted by the boolean relation `le`. -/
def insertOrd (le : α → α → Bool) (x : α) : List α → List α
  | [] => [x]
  | y :: ys => if le x y then x :: y :: ys else y :: insertOrd le x ys

/-- Insertion sort by the boolean relation `le` (stable). -/
def sortByRel (le : α → α → Bool) : List α → List α
  | [] => []
  | x :: xs => insertOrd le x (sortByRel le xs)

/-- A repository record as fetched by `GitHubFetcher` (spec §1): the engine's
`today_entries` items. -/
structure RawEntry where
  repo_name : String
  stars : Int
  language : String
  topics : List String
  description : String
  url : String
deriving DecidableEq

/-- A `RepositoryDetail`-shaped enrichment record (spec §3). -/
structure Detail where
  summary : String
  description : String
  category : String
  category_zh : String
  tech_stack : List String
  solves : List String
  use_case : String
  language : String
  topics : List String
  url : String
deriving DecidableEq

/-- An enriched entry of the engine's working set: the fields the notifier and
the site generator read from the `TrendResult` lists. -/
structure Entry where
  repo_name : String
  stars : Int
  stars_delta : Int
  summary : String
  description : String
  category : String
  category_zh : String
  url : String
deriving DecidableEq

/-- The engine's single output per run (spec §3 `TrendResult`). -/
structure TrendResult where
  topic : String
  top_20 : List Entry
  rising_top5 : List Entry
  new_entries : List Entry
  dropped_entries : List Entry
  surging : List Entry
  active : List Entry
deriving DecidableEq

/-- Modelled from the spec: the configured topic tag (`config.TOPIC`). -/
def TOPIC : String := "trending"

/-- Summary used when a repository has no enrichment record: the description
truncated as in `_fallback_summaries` (spec §4.2 step 1: "summary = truncated
description"; the truncation rule is the 50-character one the summarizer's own
fallback uses). -/
def truncate_summary (d : String) : String :=
  if d.length > 50 then d.take 50 ++ "..." else d

/-- Modelled from the spec (§4.2 step 1): enrich a raw entry with its
enrichment-map counterpart, or fall back to raw metadata (summary = truncated
description, category = "other"). -/
def enrich_entry (emap : List (String × Detail)) (r : RawEntry) (delta : Int) :
    Entry :=
  match emap.lookup r.repo_name with
  | some d =>
    { repo_name := r.repo_name, stars := r.stars, stars_delta := delta,
      summary := d.summary, description := d.description,
      category := d.category, category_zh := d.category_zh, url := r.url }
  | none =>
    { repo_name := r.repo_name, stars := r.stars, stars_delta := delta,
      summary := truncate_summary r.description, description := r.description,
      category := "other", category_zh := "其他", url := r.url }

/-- `previous_stars.get(repo_name, stars)` (spec §4.2 step 3): stars of the
repository in the previous snapshot, or today's stars when absent (so that the
delta of a first appearance is 0). -/
def prev_stars (prev : List SnapEntry) (name : String) (todayStars : Int) : Int :=
  ((prev.find? (fun e => e.repo_name == name)).map SnapEntry.stars).getD todayStars

/-- Ordering of `rising_top5` (spec §4.2 step 6): descending delta, ties by
descending stars, then by repository name for determinism. -/
def risingLe (a b : Entry) : Bool :=
  if a.stars_delta != b.stars_delta then b.stars_delta < a.stars_delta
  else if a.stars != b.stars then b.stars < a.stars
  else !(decide (b.repo_name < a.repo_name))

/-- Snapshot rows for today's raw entries: ranks assigned 1-based by the order
of `today_entries` as received (spec §4.2 step 10). -/
def with_ranks (entries : List RawEntry) : List SnapEntry :=
  (enumFrom 1 entries).map (fun p => ⟨p.2.repo_name, p.2.stars, p.1⟩)

/-- Modelled from the spec (§4.1): `save_today_snapshot` upserts all rows for
the date — re-running for the same date replaces that date's rows. -/
def save_today_snapshot (s : Store) (today : Nat) (entries : List RawEntry) :
    Store :=
  { s with snapshots :=
      (s.snapshots.filter (fun p => p.1 != today)) ++ [(today, with_ranks entries)] }

/-- Up to `k` trailing tracked snapshots walking backward from `before` by
successive `get_previous_snapshot` calls (spec §4.2 step 8). -/
def trailing_snapshots (s : Store) : Nat → Nat → List (List SnapEntry)
  | 0, _ => []
  | k + 1, before =>
    match prev_snapshot_with_date s before with
    | none => []
    | some (d, es) => es :: trailing_snapshots s k d

/-- Modelled from the spec (§4.2): `calculate_trends(today_entries, today_date,
enrichment_map, deduplicate_days)`.  Steps 1-9 build the classified sets;
step 10 persists today's snapshot inside the engine's run, so the result is
the `TrendResult` together with the updated store. -/
def calculate_trends (store : Store) (today_entries : List RawEntry)
    (today : Nat) (emap : List (String × Detail)) (deduplicate_days : Nat) :
    TrendResult × Store :=
  let prev := get_previous_snapshot store today
  let enriched := today_entries.map
    (fun r => enrich_entry emap r (r.stars - prev_stars prev r.repo_name r.stars))
  let prevNames := prev.map SnapEntry.repo_name
  let todayNames := today_entries.map RawEntry.repo_name
  let newEntries := enriched.filter (fun e => decide (e.repo_name ∉ prevNames))
  let dropped := (sortByRel (fun a b => a.rank ≤ b.rank)
      (prev.filter (fun e => decide (e.repo_name ∉ todayNames)))).map
    (fun e => ({ repo_name := e.repo_name, stars := e.stars, stars_delta := 0,
                 summary := "", description := "", category := "",
                 category_zh := "", url := "" } : Entry))
  let both := enriched.filter (fun e => decide (e.repo_name ∈ prevNames))
  let rising := (sortByRel risingLe
      (both.filter (fun e => decide (0 < e.stars_delta)))).take 5
  let surging := enriched.filter (fun e =>
    decide (10 ≤ e.stars_delta) &&
    decide (prev_stars prev e.repo_name e.stars ≤ e.stars_delta * 10))
  let trail := trailing_snapshots store 3 today
  let active := if trail.length = 3 then
      enriched.filter (fun e =>
        trail.all (fun snap => snap.any (fun se => se.repo_name == e.repo_name)))
    else []
  let excluded := get_notified_repo_names store (today - deduplicate_days)
  let top20 := (enriched.filter (fun e => decide (e.repo_name ∉ excluded))).take 20
  ({ topic := TOPIC, top_20 := top20, rising_top5 := rising,
     new_entries := newEntries, dropped_entries := dropped,
     surging := surging, active := active },
   save_today_snapshot store today today_entries)

/-! ## Telegram sender (`src/telegram_sender.py`) -/

/-- The sender's configuration (`TelegramSender.__init__`). -/
structure TelegramSender where
  token : String
  chat_id : String
deriving DecidableEq

/-- `self.api_url` as built in `__init__`. -/
def TelegramSender.api_url (s : TelegramSender) : String :=
  "https://api.telegram.org/bot" ++ s.token ++ "/sendMessage"

/-- Outcome of `requests.post(...)` followed by `response.json()`: either some
exception was raised (network error, timeout, undecodable body — all caught by
the same handler) or a decoded JSON value was produced. -/
inductive HttpOutcome where
  | raises (msg : String)
  | responds (json : JValue)

/-- Result of one `send_message` call: the returned dict, plus whether an HTTP
request was attempted (explicit effect flag of the embedding). -/
structure SendCall where
  result : List (String × JValue)
  httpAttempted : Bool

/-- `send_message` (`telegram_sender.py` lines 24-61): missing configuration
short-circuits without any HTTP request; otherwise the posted request's
outcome decides the returned dict.  A non-dict decoded body makes
`result.get("ok")` raise `AttributeError`, which the same `except` catches. -/
def send_message (s : TelegramSender) (text : String) (parse_mode : String)
    (http : HttpOutcome) : SendCall :=
  let _ := text
  let _ := parse_mode
  if s.token == "" || s.chat_id == "" then
    { result := [("success", .bool false), ("message", .str "配置缺失")],
      httpAttempted := false }
  else
    match http with
    | .raises msg =>
      { result := [("success", .bool false), ("message", .str msg)],
        httpAttempted := true }
    | .responds j =>
      match j with
      | .obj fields =>
        if ((fields.lookup "ok").getD .null).truthy then
          { result := [("success", .bool true), ("result", j)],
            httpAttempted := true }
        else
          { result := [("success", .bool false),
                       ("message", (fields.lookup "description").getD .null)],
            httpAttempted := true }
      | _ =>
        { result := [("success", .bool false), ("message", .str "AttributeError")],
          httpAttempted := true }

/-- `_format_repo_line` (`telegram_sender.py` lines 116-124). -/
def format_repo_line (repo : Entry) : String :=
  let name := repo.repo_name
  let url := repo.url
  let stars := repo.stars
  let delta := repo.stars_delta
  let delta_str := if delta > 0 then "+" ++ toString delta else toString delta
  "• [" ++ name ++ "](" ++ url ++ ") ⭐" ++ toString stars ++ " (" ++ delta_str ++ ")"

/-- `_format_repo_item` (`telegram_sender.py` lines 126-146). -/
def format_repo_item (index : Nat) (repo : Entry) : String :=
  let name := repo.repo_name
  let url := repo.url
  let summary0 := pyOrS repo.summary repo.description
  let category := repo.category_zh
  let summary := if summary0.length > 60 then summary0.take 57 ++ "..." else summary0
  let icon := if index ≤ 3 then (["🥇", "🥈", "🥉"].getD (index - 1) "🔹") else "🔹"
  let line := icon ++ " *[" ++ name ++ "](" ++ url ++ ")*"
  let line := if category != "" then line ++ " `[" ++ category ++ "]`" else line
  line ++ "\n  _" ++ summary ++ "_"

/-- `_format_report` (`telegram_sender.py` lines 80-114): header, the rising
list, the first five new entries, the first ten of `top_20`, and the footer
link, joined by newlines. -/
def format_report (trends : TrendResult) (date : String) : String :=
  let lines : List String :=
    ["🔥 *GitHub Topics Trending* `#" ++ trends.topic ++ "`",
     "📅 *" ++ date ++ "*",
     ""]
  let rising := trends.rising_top5
  let lines := if !rising.isEmpty then
      lines ++ ["🚀 *今日飙升*"] ++ rising.map format_repo_line ++ [""]
    else lines
  let new_entries := trends.new_entries.take 5
  let lines := if !new_entries.isEmpty then
      lines ++ ["✨ *新晋项目*"] ++ new_entries.map format_repo_line ++ [""]
    else lines
  let top_list := trends.top_20.take 10
  let lines := if !top_list.isEmpty then
      lines ++ ["🏆 *热门精选*"] ++
        (enumFrom 1 top_list).map (fun p => format_repo_item p.1 p.2)
    else lines
  let lines := lines ++ ["",
    "[查看完整报告及更多分类](https://james5-cell.github.io/github-topics-trending/)"]
  String.intercalate "\n" lines

/-- `send_report` (`telegram_sender.py` lines 63-78): format the report and
send it with the default Markdown parse mode. -/
def send_report (s : TelegramSender) (trends : TrendResult) (date : String)
    (http : HttpOutcome) : SendCall :=
  send_message s (format_report trends date) "Markdown" http

/-- The repository names for which `_format_report` renders a line: every
`rising_top5` entry, the first five `new_entries`, and the first ten of
`top_20` (the message body mentions exactly these repositories). -/
def reportShownNames (t : TrendResult) : List String :=
  t.rising_top5.map Entry.repo_name ++
  (t.new_entries.take 5).map Entry.repo_name ++
  (t.top_20.take 10).map Entry.repo_name

/-! ## Pipeline driver (`src/main.py`)

The driver is embedded as a step machine: each collaborator call receives its
outcome (a value, a raised `Exception`, or a `KeyboardInterrupt`) from an
explicit `World`, and the run produces the process exit status
(`none` = normal return, i.e. exit 0) together with the ordered trace of
effects the driver performed.  An effect is recorded at the moment the call is
made, so an attempted call that raises still appears in the trace. -/

/-- Outcome of one Python call: a value, a raised `Exception`, or a
`KeyboardInterrupt`. -/
inductive PyResult (α : Type) where
  | ok (a : α)
  | raise
  | interrupt
deriving DecidableEq

/-- The observable effects of one driver run, in order. -/
inductive Effect where
  | openDb
  | initDb
  | fetchRepos
  | fetchReadmes
  | aiAnalyze
  | saveDetails
  | calcTrends
  | genHtml
  | sendReport
  | recordNotification (names : List String)
  | generateAll
  | cleanup
  | closeDb
deriving DecidableEq

/-- Environment outcomes of one run of `main`: the configuration check plus
the result of every collaborator call, in the order `main` makes them.  The
Telegram send is `ok b` with `b = result["success"]` (the sender is total,
C10), but may still be interrupted. -/
structure World where
  env_ok : Bool
  init : PyResult Unit
  fetch : PyResult Unit
  readmes : PyResult Unit
  ai : PyResult Unit
  save : PyResult Unit
  calcStep : PyResult TrendResult
  genHtml : PyResult Unit
  send : PyResult Bool
  record : PyResult Unit
  webGen : PyResult Unit
  cleanupStep : PyResult Unit

/-- One step inside `main`'s `try` block: record the effect of the call; on an
`Exception` the handler prints and `sys.exit(1)`, on `KeyboardInterrupt` it
`sys.exit(130)`, and the `finally` closes the database in either case. -/
def runStep (r : PyResult α) (eff : Effect) (effs : List Effect)
    (k : α → List Effect → Option Nat × List Effect) :
    Option Nat × List Effect :=
  match r with
  | .ok a => k a (effs ++ [eff])
  | .raise => (some 1, effs ++ [eff, Effect.closeDb])
  | .interrupt => (some 130, effs ++ [eff, Effect.closeDb])

/-- The repository names `main` records after a successful push
(`main.py` line 180): `[r["repo_name"] for r in trends.get("top_20", [])]`. -/
def recordedNames (t : TrendResult) : List String :=
  t.top_20.map Entry.repo_name

/-- Steps 8 and 9 of `main` (website generation and retention cleanup),
followed by the normal return through `finally`. -/
def runAfterSend (w : World) (effs : List Effect) : Option Nat × List Effect :=
  runStep w.webGen .generateAll effs fun _ effs =>
  runStep w.cleanupStep .cleanup effs fun _ effs =>
  (none, effs ++ [Effect.closeDb])

/-- `main` (`main.py` lines 86-222).  The environment check exits before the
store is opened; `Database(DB_PATH)` and `db.init_db()` run before the
`try`/`finally`, so an exception there propagates out of `main` uncaught (the
interpreter exits nonzero) without closing the handle.  Inside the `try`, the
nine steps run in order; a successful Telegram send whose `top_20` list is
non-empty records the notification before the run continues with website
generation and cleanup. -/
def runMain (w : World) : Option Nat × List Effect :=
  if !w.env_ok then (some 1, [])
  else
    match w.init with
    | .ok _ =>
      runStep w.fetch .fetchRepos [Effect.openDb, Effect.initDb] fun _ effs =>
      runStep w.readmes .fetchReadmes effs fun _ effs =>
      runStep w.ai .aiAnalyze effs fun _ effs =>
      runStep w.save .saveDetails effs fun _ effs =>
      runStep w.calcStep .calcTrends effs fun trends effs =>
      runStep w.genHtml .genHtml effs fun _ effs =>
      runStep w.send .sendReport effs fun success effs =>
        if success then
          if recordedNames trends = [] then runAfterSend w effs
          else
            runStep w.record (.recordNotification (recordedNames trends)) effs
              fun _ effs => runAfterSend w effs
        else runAfterSend w effs
    | _ => (some 1, [Effect.openDb, Effect.initDb])

/-! ## Static site generator (`src/web_generator.py`)

Pages are embedded as the list of `(relative path, content)` files written;
`generate_trending_page` writes two files (the dated page and its
`latest.html` copy).  The current year of the footer is passed explicitly. -/

/-- Site metadata (`config.SITE_META`), as read by `web_generator.py`. -/
structure SiteMeta where
  title : String
  subtitle : String
  description : String
deriving DecidableEq

/-- Modelled from the spec: `src/config.py` is not among the available
sources; the site title, subtitle and description are a modelling choice. -/
def SITE_META : SiteMeta :=
  ⟨"GitHub Topics Trending", "AI-curated daily trending repositories",
   "Daily trending GitHub repositories for a topic, with AI summaries"⟩

/-- Modelled from the spec: `config.BASE_URL`, the site's path prefix on
GitHub Pages. -/
def BASE_URL : String := "/github-topics-trending"

/-- Modelled from the spec: `config.format_number`, the star-count rendering
helper; the spec does not describe its format, so plain decimal rendering is
used. -/
def format_number (n : Int) : String := toString n

/-- Python `s.rstrip("/")`. -/
def rstripSlashes (s : String) : String :=
  String.mk (((s.data.reverse).dropWhile (fun c => c == '/')).reverse)

/-- `self.url_prefix` as computed in `WebGenerator.__init__`: `BASE_URL`
without trailing slashes, forced to start with a slash unless empty. -/
def siteRoot : String :=
  let p := rstripSlashes BASE_URL
  if p != "" && !(p.startsWith "/") then "/" ++ p else p

/-- The stylesheet written by `generate_css` (`web_generator.py` lines
189-532). -/
def cssText : String :=
  "
/* Minimalist Design System */
@import url(\x27https://fonts.googleapis.com/css2?family=Inter:wght@300;400;500;600;700&display=swap\x27);
@import url(\x27https://fonts.googleapis.com/css2?family=JetBrains+Mono:wght@400;500&display=swap\x27);

:root \x7b
    --bg: #ffffff;
    --text-primary: #111111;
    --text-secondary: #666666;
    --text-tertiary: #999999;
    --accent: #111111;
    --border: #eaeaea;
    --card-bg: #ffffff;
    --card-hover: #fafafa;
    --nav-height: 64px;
    --radius: 8px;
\x7d

@media (prefers-color-scheme: dark) \x7b
    :root \x7b
        --bg: #0a0a0a;
        --text-primary: #ededed;
        --text-secondary: #a1a1a1;
        --text-tertiary: #666666;
        --accent: #ededed;
        --border: #2a2a2a;
        --card-bg: #0a0a0a;
        --card-hover: #111111;
    \x7d
\x7d

* \x7b margin: 0; padding: 0; box-sizing: border-box; \x7d

body \x7b
    font-family: \x27Inter\x27, -apple-system, BlinkMacSystemFont, sans-serif;
    background-color: var(--bg);
    color: var(--text-primary);
    line-height: 1.6;
    -webkit-font-smoothing: antialiased;
\x7d

/* Layout */
.container \x7b
    max-width: 1024px;
    margin: 0 auto;
    padding: 0 24px;
\x7d

/* Navigation */
.nav \x7b
    height: var(--nav-height);
    border-bottom: 1px solid var(--border);
    position: sticky;
    top: 0;
    background: var(--bg);
    z-index: 100;
    backdrop-filter: blur(10px);
    background-color: rgba(255, 255, 255, 0.8);
\x7d

@media (prefers-color-scheme: dark) \x7b
    .nav \x7b background-color: rgba(10, 10, 10, 0.8); \x7d
\x7d

.nav-content \x7b
    height: 100%;
    display: flex;
    justify-content: space-between;
    align-items: center;
\x7d

.nav-logo \x7b
    font-weight: 700;
    font-size: 1.1rem;
    color: var(--text-primary);
    text-decoration: none;
    letter-spacing: -0.02em;
\x7d

.nav-links \x7b
    display: flex;
    gap: 24px;
\x7d

.link \x7b
    color: var(--text-secondary);
    text-decoration: none;
    font-size: 0.95rem;
    font-weight: 500;
    transition: color 0.2s;
\x7d

.link:hover, .link.active \x7b
    color: var(--text-primary);
\x7d

/* Hero Section */
.hero \x7b
    padding: 100px 0 80px;
    text-align: center;
\x7d

.hero-label \x7b
    text-transform: uppercase;
    font-size: 0.75rem;
    letter-spacing: 0.1em;
    color: var(--text-secondary);
    font-weight: 600;
    margin-bottom: 16px;
    display: block;
\x7d

.hero-title \x7b
    font-size: 3.5rem;
    font-weight: 800;
    line-height: 1.1;
    margin-bottom: 16px;
    letter-spacing: -0.03em;
    background: linear-gradient(to right, var(--text-primary), var(--text-secondary));
    -webkit-background-clip: text;
    -webkit-text-fill-color: transparent;
\x7d

.hero-subtitle \x7b
    font-size: 1.25rem;
    color: var(--text-secondary);
    max-width: 600px;
    margin: 0 auto 32px;
\x7d

.hero-meta \x7b
    display: flex;
    justify-content: center;
    gap: 12px;
\x7d

.date-badge, .topic-badge \x7b
    padding: 6px 14px;
    background: var(--card-hover);
    border: 1px solid var(--border);
    border-radius: 99px;
    font-size: 0.85rem;
    font-weight: 500;
    color: var(--text-secondary);
\x7d

/* Page Headers */
.page-header \x7b
    padding: 80px 0 40px;
    text-align: left;
\x7d
.page-header.container \x7b text-align: left; \x7d
.page-title \x7b
    font-size: 2.5rem;
    font-weight: 700;
    letter-spacing: -0.02em;
    margin-bottom: 8px;
\x7d
.page-subtitle \x7b
    color: var(--text-secondary);
    font-size: 1.1rem;
\x7d

/* Sections */
.section \x7b margin-bottom: 80px; \x7d
.section-header \x7b margin-bottom: 32px; \x7d
.section-title \x7b
    font-size: 1.5rem;
    font-weight: 600;
    letter-spacing: -0.02em;
    margin-bottom: 4px;
\x7d
.section-desc \x7b color: var(--text-secondary); \x7d

/* Repo Cards */
.repo-grid \x7b
    display: grid;
    grid-template-columns: repeat(auto-fill, minmax(320px, 1fr));
    gap: 24px;
\x7d

.repo-card \x7b
    background: var(--card-bg);
    border: 1px solid var(--border);
    border-radius: var(--radius);
    padding: 24px;
    display: flex;
    flex-direction: column;
    transition: all 0.2s ease;
    height: 100%;
    position: relative;
    top: 0;
\x7d

.repo-card:hover \x7b
    border-color: var(--text-primary);
    transform: translateY(-2px);
    box-shadow: 0 10px 30px -10px rgba(0,0,0,0.05);
\x7d

.card-header \x7b
    display: flex;
    justify-content: space-between;
    align-items: flex-start;
    margin-bottom: 16px;
\x7d

.repo-name \x7b
    font-size: 1.1rem;
    font-weight: 600;
\x7d

.repo-name a \x7b
    color: var(--text-primary);
    text-decoration: none;
\x7d
.repo-name a:hover \x7b text-decoration: underline; \x7d

.repo-stats \x7b
    font-family: \x27JetBrains Mono\x27, monospace;
    font-size: 0.8rem;
    color: var(--text-secondary);
    background: var(--card-hover);
    padding: 4px 8px;
    border-radius: 4px;
\x7d

.repo-desc \x7b
    font-size: 0.95rem;
    color: var(--text-secondary);
    margin-bottom: 20px;
    flex-grow: 1;
    display: -webkit-box;
    -webkit-line-clamp: 3;
    -webkit-box-orient: vertical;
    overflow: hidden;
\x7d

.card-footer \x7b
    display: flex;
    gap: 8px;
    flex-wrap: wrap;
\x7d

.tag \x7b
    font-size: 0.75rem;
    padding: 4px 10px;
    border-radius: 99px;
    border: 1px solid var(--border);
    color: var(--text-secondary);
    font-weight: 500;
\x7d

/* Category Grid */
.category-grid \x7b
    display: grid;
    grid-template-columns: repeat(auto-fill, minmax(200px, 1fr));
    gap: 16px;
\x7d

.category-card \x7b
    padding: 24px;
    border: 1px solid var(--border);
    border-radius: var(--radius);
    text-decoration: none;
    color: var(--text-primary);
    transition: all 0.2s;
    display: flex;
    flex-direction: column;
    align-items: center;
    text-align: center;
\x7d

.category-card:hover \x7b
    background: var(--card-hover);
    border-color: var(--text-secondary);
\x7d

.cat-icon \x7b font-size: 2rem; margin-bottom: 12px; \x7d
.cat-name \x7b font-weight: 600; font-size: 1rem; \x7d

/* Lists */
.trend-grid \x7b
    display: grid;
    grid-template-columns: repeat(auto-fit, minmax(300px, 1fr));
    gap: 40px;
\x7d

.column-title \x7b
    font-size: 1.2rem;
    font-weight: 600;
    margin-bottom: 24px;
    padding-bottom: 12px;
    border-bottom: 1px solid var(--border);
\x7d

.repo-list \x7b display: flex; flex-direction: column; gap: 16px; \x7d

.list-item \x7b
    display: block;
    text-decoration: none;
    padding: 16px;
    border: 1px solid var(--border);
    border-radius: var(--radius);
    transition: all 0.2s;
\x7d

.list-item:hover \x7b
    border-color: var(--text-primary);
    background: var(--card-hover);
\x7d

.li-header \x7b
    display: flex;
    justify-content: space-between;
    margin-bottom: 6px;
\x7d

.li-name \x7b color: var(--text-primary); font-weight: 600; \x7d
.li-stars \x7b font-family: \x27JetBrains Mono\x27, monospace; font-size: 0.8rem; color: var(--text-secondary); \x7d
.li-desc \x7b font-size: 0.85rem; color: var(--text-secondary); white-space: nowrap; overflow: hidden; text-overflow: ellipsis; \x7d

/* Footer */
.footer \x7b
    border-top: 1px solid var(--border);
    padding: 40px 0;
    margin-top: 80px;
    color: var(--text-tertiary);
    font-size: 0.9rem;
    text-align: center;
\x7d

.footer a \x7b color: var(--text-secondary); text-decoration: none; \x7d
.footer a:hover \x7b color: var(--text-primary); \x7d

@media (max-width: 768px) \x7b
    .hero-title \x7b font-size: 2.5rem; \x7d
\x7d
"

/-- `_get_base_html` (`web_generator.py` lines 534-570): the common page
shell, with the body spliced into `<main>` and the current year in the
footer. -/
def get_base_html (year : Nat) (title : String) (body_content : String) : String :=
  r#"<!DOCTYPE html>
<html lang="en">
<head>
    <meta charset="UTF-8">
    <meta name="viewport" content="width=device-width, initial-scale=1.0">
    <title>"# ++ title ++ " | " ++ SITE_META.title ++ r#"</title>
    <meta name="description" content=""# ++ SITE_META.description ++ r#"">
    <link rel="stylesheet" href=""# ++ siteRoot ++ r#"/assets/css/style.css">
    <link rel="icon" type="image/svg+xml" href="data:image/svg+xml,<svg xmlns=%22http://www.w3.org/2000/svg%22 viewBox=%220 0 100 100%22><text y=%22.9em%22 font-size=%2290%22>📈</text></svg>">
</head>
<body>
    <nav class="nav">
        <div class="container nav-content">
            <a href=""# ++ siteRoot ++ r#"/" class="nav-logo">"# ++ SITE_META.title ++ r#"</a>
            <div class="nav-links">
                <a href=""# ++ siteRoot ++ r#"/" class="link">Home</a>
                <a href=""# ++ siteRoot ++ r#"/trending/latest.html" class="link">Trends</a>
                <a href=""# ++ siteRoot ++ r#"/category/plugin.html" class="link">Categories</a>
            </div>
        </div>
    </nav>

    <main>
        "# ++ body_content ++ r#"
    </main>

    <footer class="footer container">
        <p>© "# ++ toString year ++ " " ++ SITE_META.title ++ r#". Curated by AI.</p>
        <p style="margin-top: 8px;">
            <a href="https://github.com/topics/"# ++ TOPIC ++ r#"">#"# ++ TOPIC ++ r#"</a> &bull; 
            <a href="https://github.com/geekjourneyx/github-topics-trending">GitHub</a>
        </p>
    </footer>
</body>
</html>"#

/-- `_format_repo_card` (`web_generator.py` lines 572-591).  The rows passed
in always carry their keys, so each `repo.get(key, default)` reads the stored
field value. -/
def format_repo_card (repo : Entry) : String :=
  let repo_name := repo.repo_name
  let url := repo.url
  let stars := repo.stars
  let summary := pyOrS repo.summary repo.description
  let category := repo.category_zh
  r#"
        <div class="repo-card">
            <div class="card-header">
                <div class="repo-name"><a href=""# ++ url ++ r#"" target="_blank">"# ++ (repo_name.replace "/" " / ") ++ r#"</a></div>
                <div class="repo-stats">★ "# ++ format_number stars ++ r#"</div>
            </div>
            <p class="repo-desc">"# ++ summary ++ r#"</p>
            <div class="card-footer">
                "# ++ (if category != "" then "<span class=\"tag\">" ++ category ++ "</span>" else "") ++ r#"
            </div>
        </div>
        "#

/-- `_format_repo_list_item` (`web_generator.py` lines 593-610). -/
def format_repo_list_item (repo : Entry) : String :=
  let repo_name := repo.repo_name
  let url := repo.url
  let stars_delta := repo.stars_delta
  let summary := pyOrS repo.summary repo.description
  let stars_display := if stars_delta > 0 then "+" ++ format_number stars_delta
                       else toString stars_delta
  r#"
        <a href=""# ++ url ++ r#"" target="_blank" class="list-item">
            <div class="li-header">
                <span class="li-name">"# ++ ((repo_name.splitOn "/").reverse.headD "") ++ r#"</span>
                <span class="li-stars">"# ++ stars_display ++ r#" ★</span>
            </div>
            <p class="li-desc">"# ++ summary ++ r#"</p>
        </a>
        "#

/-- `_format_category_card` (`web_generator.py` lines 612-621): the card links
to the page of the category key mapping to this `CategoryInfo` (the source
takes `[0]` of the matching keys; callers always pass a value of `CATEGORIES`,
so a match exists). -/
def format_category_card (category : CategoryInfo) : String :=
  let key := ((CATEGORIES.filter (fun p => p.2 == category)).map Prod.fst).headD ""
  r#"
        <a href=""# ++ siteRoot ++ "/category/" ++ key ++ r#".html" class="category-card">
            <div class="cat-icon">"# ++ category.icon ++ r#"</div>
            <div class="cat-name">"# ++ category.name ++ r#"</div>
        </a>
        "#

/-- The index page body (`generate_index`, `web_generator.py` lines 69-109),
rendered from the given (already `[:20]`-sliced) top list and the category
cards. -/
def indexBody (top_20 : List Entry) (date : String) : String :=
  let repo_cards := String.join (top_20.map format_repo_card)
  let category_cards := String.join ((CATEGORIES.map Prod.snd).map format_category_card)
  r#"
        <header class="hero">
            <div class="hero-content">
                <span class="hero-label">Daily Trending</span>
                <h1 class="hero-title">"# ++ SITE_META.title ++ r#"</h1>
                <p class="hero-subtitle">"# ++ SITE_META.subtitle ++ r#"</p>
                <div class="hero-meta">
                    <span class="date-badge">"# ++ date ++ r#"</span>
                    <span class="topic-badge">#"# ++ TOPIC ++ r#"</span>
                </div>
            </div>
        </header>

        <div class="container">
            <section class="section">
                <div class="section-header">
                    <h2 class="section-title">Top 20 Selection</h2>
                    <p class="section-desc">AI-curated essentials for today.</p>
                </div>
                <div class="repo-grid">
                    "# ++ repo_cards ++ r#"
                </div>
            </section>

            <section class="section">
                <div class="section-header">
                    <h2 class="section-title">Browse by Category</h2>
                </div>
                <div class="category-grid">
                    "# ++ category_cards ++ r#"
                </div>
            </section>
        </div>
        "#

/-- The trending page body (`generate_trending_page`, `web_generator.py`
lines 115-147), rendered from `rising_top5`, the first ten `new_entries`, and
`active`. -/
def trendingBody (rising new10 active : List Entry) (date : String) : String :=
  r#"
        <header class="page-header container">
            <h1 class="page-title">Trends Report</h1>
            <p class="page-subtitle">"# ++ date ++ r#"</p>
        </header>

        <div class="container">
            <div class="trend-grid">
                <div class="trend-column">
                    <h2 class="column-title">🔥 Rising Stars</h2>
                    <div class="repo-list">
                        "# ++ String.join (rising.map format_repo_list_item) ++ r#"
                    </div>
                </div>

                <div class="trend-column">
                    <h2 class="column-title">✨ New Arrivals</h2>
                    <div class="repo-list">
                        "# ++ String.join (new10.map format_repo_list_item) ++ r#"
                    </div>
                </div>
                
                <div class="trend-column">
                    <h2 class="column-title">⚡ Active Today</h2>
                    <div class="repo-list">
                        "# ++ String.join (active.map format_repo_list_item) ++ r#"
                    </div>
                </div>
            </div>
        </div>
        "#

/-- A category page body (`generate_category_pages`, `web_generator.py`
lines 159-187), rendered from the category's display data and its stored
repositories. -/
def categoryBody (info : CategoryInfo) (repos : List Entry) : String :=
  r#"
        <header class="page-header container">
            <div class="category-icon-large">"# ++ info.icon ++ r#"</div>
            <h1 class="page-title">"# ++ info.name ++ r#"</h1>
            <p class="page-subtitle">"# ++ info.description ++ r#"</p>
        </header>

        <div class="container">
            <div class="repo-grid">
                "# ++ String.join (repos.map format_repo_card) ++ r#"
            </div>
        </div>
        "#

/-- `generate_index`: the index page, rendered from the first 20 entries of
`top_20`, written to `index.html`. -/
def generate_index (trends : TrendResult) (date : String) (year : Nat) :
    String × String :=
  ("index.html", get_base_html year "Home" (indexBody (trends.top_20.take 20) date))

/-- `generate_trending_page`: the dated per-day page and its `latest.html`
copy, both with the same content, rendered from `rising_top5`,
`new_entries[:10]` and `active`. -/
def generate_trending_page (trends : TrendResult) (date : String) (year : Nat) :
    List (String × String) :=
  let content := get_base_html year ("Trending - " ++ date)
    (trendingBody trends.rising_top5 (trends.new_entries.take 10) trends.active date)
  [("trending/" ++ date ++ ".html", content), ("trending/latest.html", content)]

/-- `generate_category_pages`: one page per category of the fixed set, each
populated from `db.get_repos_by_category(key, limit=50)`.  The store's
read-only lookup (spec §4.1 `get_repos_by_category(category, limit)`,
`src/database.py` is not among the available sources) is passed as an
abstract function. -/
def generate_category_pages (db : String → Nat → List Entry) (year : Nat) :
    List (String × String) :=
  CATEGORIES.map (fun ki =>
    ("category/" ++ ki.1 ++ ".html",
     get_base_html year ki.2.name (categoryBody ki.2 (db ki.1 50))))

/-- `generate_css`: the static stylesheet. -/
def generate_css : String × String := ("assets/css/style.css", cssText)

/-- `generate_all` (`web_generator.py` lines 41-63): all files written for one
run — the index page, the per-day trending page plus its `latest.html` copy,
one page per category, and the stylesheet. -/
def generate_all (trends : TrendResult) (date : String)
    (db : String → Nat → List Entry) (year : Nat) : List (String × String) :=
  [generate_index trends date year] ++
  generate_trending_page trends date year ++
  generate_category_pages db year ++
  [generate_css]

/-! ## Auxiliary definitions and concrete fixtures -/

/-- Number of `closeDb` effects in a trace. -/
def countClose : List Effect → Nat
  | [] => 0
  | e :: es => (if e = Effect.closeDb then 1 else 0) + countClose es

/-- A record's `category` field is a string belonging to the fixed category
set. -/
def categoryValid (rec : List (String × JValue)) : Bool :=
  match rec.lookup "category" with
  | some (.str c) => categoryKeys.contains c
  | _ => false

/-- One of the five steps up to and including trend computation raised an
`Exception`, every step before it having succeeded. -/
def earlyRaise (w : World) : Prop :=
  w.fetch = .raise
  ∨ (w.fetch = .ok () ∧ w.readmes = .raise)
  ∨ (w.fetch = .ok () ∧ w.readmes = .ok () ∧ w.ai = .raise)
  ∨ (w.fetch = .ok () ∧ w.readmes = .ok () ∧ w.ai = .ok () ∧ w.save = .raise)
  ∨ (w.fetch = .ok () ∧ w.readmes = .ok () ∧ w.ai = .ok () ∧ w.save = .ok ()
      ∧ w.calcStep = .raise)

/-- An enriched entry carrying only a name and star count. -/
def mkEntry (name : String) (stars : Int) : Entry :=
  { repo_name := name, stars := stars, stars_delta := 0, summary := "",
    description := "", category := "", category_zh := "", url := "" }

/-- A `TrendResult` with all lists empty. -/
def emptyTrends : TrendResult :=
  { topic := TOPIC, top_20 := [], rising_top5 := [], new_entries := [],
    dropped_entries := [], surging := [], active := [] }

/-- A `TrendResult` whose `top_20` has eleven entries (so the digest shows
only the first ten). -/
def cexT : TrendResult :=
  { emptyTrends with top_20 :=
      ["o/r01", "o/r02", "o/r03", "o/r04", "o/r05", "o/r06", "o/r07", "o/r08",
       "o/r09", "o/r10", "o/r11"].map (fun n => mkEntry n 100) }

/-- A repository input record for the summarizer fixtures. -/
def cexRepoIn : RepoIn :=
  { repo_name := some "a/b", name := none, description := "demo",
    language := "Python", topics := ["x"], readme_summary := "", owner := "a",
    url := "https://github.com/a/b" }

/-- A repository input record with a 60-character description. -/
def repoLong : RepoIn :=
  { cexRepoIn with description := "012345678901234567890123456789012345678901234567890123456789" }

/-- An AI response whose only record carries a category outside the fixed
set. -/
def cexResponse : JValue :=
  .arr [.obj [("repo_name", .str "a/b"), ("category", .str "weird-cat")]]

/-- A store whose only notification is for "x/y" on day 9. -/
def store0 : Store := { snapshots := [], notifications := [("x/y", 9)] }

/-- Today's fetched entries for the engine fixture. -/
def rawX : RawEntry :=
  { repo_name := "x/y", stars := 200, language := "", topics := [],
    description := "", url := "" }

/-- A second fetched entry, not previously notified. -/
def raw0 : RawEntry :=
  { repo_name := "a/b", stars := 100, language := "Py", topics := [],
    description := "demo repo", url := "" }

/-- A `TrendResult` with one top pick, fed to the driver fixture. -/
def t3 : TrendResult := { emptyTrends with top_20 := [mkEntry "a/b" 10] }

/-- A driver world in which every collaborator call succeeds and the Telegram
send reports success. -/
def okWorld : World :=
  { env_ok := true, init := .ok (), fetch := .ok (), readmes := .ok (),
    ai := .ok (), save := .ok (), calcStep := .ok t3, genHtml := .ok (),
    send := .ok true, record := .ok (), webGen := .ok (),
    cleanupStep := .ok () }

/-- A world in which the AI analysis step raises. -/
def w7 : World := { okWorld with ai := .raise }

/-- A world in which `db.init_db()` raises (spec §7: `StorageError` when the
store cannot read or write its backing medium). -/
def w8 : World := { okWorld with init := .raise }

/-- The "other" category's display data. -/
def otherInfo : CategoryInfo := ⟨"其他", "📦", "Other projects"⟩

/-- An empty category lookup for the site-generator fixture. -/
def db0 : String → Nat → List Entry := fun _ _ => []

/-- A sender with an empty bot token. -/
def sEmpty : TelegramSender := ⟨"", "123456"⟩

/-! ## Helper lemmas -/

/-- Every member of `fallback_summaries` is the fallback record of some input
repository. -/
theorem mem_fallback_summaries {repos : List RepoIn}
    {rec : List (String × JValue)} (h : rec ∈ fallback_summaries repos) :
    ∃ repo, repo ∈ repos ∧ rec = fallbackRecord repo := by
  rcases List.mem_map.mp h with ⟨repo, hm, he⟩
  exact ⟨repo, hm, he.symm⟩

/-- Inversion for `validateOne`: a produced record is the validated record of
the result's fields. -/
theorem validateOne_eq_some {repos : List RepoIn} {v : JValue}
    {rec : List (String × JValue)} (h : validateOne repos v = some rec) :
    ∃ fields, v = JValue.obj fields ∧ rec = validatedRecord repos fields := by
  cases v with
  | obj fields =>
    refine ⟨fields, rfl, ?_⟩
    have h2 : (if ((fields.lookup "repo_name").getD JValue.null).truthy = true
        then some (validatedRecord repos fields) else none) = some rec := h
    by_cases hc : ((fields.lookup "repo_name").getD JValue.null).truthy = true
    · rw [if_pos hc] at h2
      exact (Option.some.inj h2).symm
    · rw [if_neg hc] at h2
      exact Option.noConfusion h2
  | null => simp [validateOne] at h
  | bool b => simp [validateOne] at h
  | num n => simp [validateOne] at h
  | str s => simp [validateOne] at h
  | arr xs => simp [validateOne] at h

/-- Every record returned by `summarize_and_classify` is either a fallback
record of an input repository or a validated record of some response
fields. -/
theorem mem_summarize {loads : String → Option JValue} {repos : List RepoIn}
    {api : ApiOutcome} {rec : List (String × JValue)}
    (h : rec ∈ summarize_and_classify loads repos api) :
    (∃ repo, repo ∈ repos ∧ rec = fallbackRecord repo)
    ∨ (∃ fields, rec = validatedRecord repos fields) := by
  unfold summarize_and_classify at h
  split at h
  · exact absurd h (List.not_mem_nil rec)
  · cases api with
    | raises => exact Or.inl (mem_fallback_summaries h)
    | responds text =>
      have h2 : rec ∈ parse_batch_response loads text repos := h
      unfold parse_batch_response at h2
      cases hl : loads (cleanResponseText text) with
      | none =>
        rw [hl] at h2
        exact Or.inl (mem_fallback_summaries h2)
      | some v =>
        rw [hl] at h2
        rcases List.mem_filterMap.mp h2 with ⟨x, _, hx⟩
        rcases validateOne_eq_some hx with ⟨fields, _, hrec⟩
        exact Or.inr ⟨fields, hrec⟩

/-! ## Claims C4, C5, C6 — AI summarizer -/

/-- C4 counterexample: a response record carrying the out-of-set category
"weird-cat" is passed through by `_parse_batch_response` unchanged, so it is
not the case that every parsed record's category belongs to the fixed
category set. -/
theorem C4_cex :
    ¬ ∀ rec ∈ parse_batch_response (fun _ => some cexResponse) "x" [cexRepoIn],
        categoryValid rec = true := by decide

/-- C4 (amended): `_parse_batch_response` substitutes the sentinel "other"
only when a response record has no `category` key at all; a present value is
carried through unchanged even when it is outside the fixed category set,
while every fallback-path record carries the category "other". -/
theorem C4_category_values :
    (∀ (repos : List RepoIn) (rec : List (String × JValue)),
        rec ∈ fallback_summaries repos →
        rec.lookup "category" = some (.str "other"))
    ∧ (∀ (repos : List RepoIn) (fields : List (String × JValue)),
        (validatedRecord repos fields).lookup "category" =
          some ((fields.lookup "category").getD (.str "other"))) := by
  constructor
  · intro repos rec h
    rcases mem_fallback_summaries h with ⟨repo, _, rfl⟩
    rfl
  · intro repos fields
    rfl

/-- C4 witness: the fallback record of a concrete repository carries the
category "other". -/
theorem C4_witness :
    (fallbackRecord cexRepoIn).lookup "category" = some (.str "other") :=
  C4_category_values.1 [cexRepoIn] (fallbackRecord cexRepoIn)
    (by simp [fallback_summaries])

/-- C5 counterexample: on the degraded path the record built for `cexRepoIn`
has no `use_case` key, so not every record returned by
`summarize_and_classify` contains all seven fields of the claim. -/
theorem C5_cex :
    ¬ ∀ rec ∈ summarize_and_classify (fun _ => none) [cexRepoIn] .raises,
        hasKey rec "use_case" = true := by decide

/-- C5 (amended): every record returned by `summarize_and_classify` is keyed
by `repo_name` and contains `summary`, `description`, `category` and
`category_zh`; records from the response-parsing path additionally contain
`use_case`, `solves` and `tech_stack`, while degraded-path records instead
carry the `fallback` marker (and omit those three fields). -/
theorem C5_output_shape (loads : String → Option JValue) (repos : List RepoIn)
    (api : ApiOutcome) (rec : List (String × JValue))
    (h : rec ∈ summarize_and_classify loads repos api) :
    hasKey rec "repo_name" = true ∧ hasKey rec "summary" = true ∧
    hasKey rec "description" = true ∧ hasKey rec "category" = true ∧
    hasKey rec "category_zh" = true ∧
    (hasKey rec "fallback" = true ∨
      (hasKey rec "use_case" = true ∧ hasKey rec "solves" = true ∧
       hasKey rec "tech_stack" = true)) := by
  rcases mem_summarize h with ⟨repo, _, rfl⟩ | ⟨fields, rfl⟩
  · exact ⟨rfl, rfl, rfl, rfl, rfl, Or.inl rfl⟩
  · exact ⟨rfl, rfl, rfl, rfl, rfl, Or.inr ⟨rfl, rfl, rfl⟩⟩

/-- C5 witness: the degraded-path record of a concrete run has the five
common fields and the fallback marker. -/
theorem C5_witness :
    hasKey (fallbackRecord cexRepoIn) "repo_name" = true ∧
    hasKey (fallbackRecord cexRepoIn) "summary" = true ∧
    hasKey (fallbackRecord cexRepoIn) "description" = true ∧
    hasKey (fallbackRecord cexRepoIn) "category" = true ∧
    hasKey (fallbackRecord cexRepoIn) "category_zh" = true ∧
    (hasKey (fallbackRecord cexRepoIn) "fallback" = true ∨
      (hasKey (fallbackRecord cexRepoIn) "use_case" = true ∧
       hasKey (fallbackRecord cexRepoIn) "solves" = true ∧
       hasKey (fallbackRecord cexRepoIn) "tech_stack" = true)) :=
  C5_output_shape (fun _ => none) [cexRepoIn] .raises (fallbackRecord cexRepoIn)
    (by simp [summarize_and_classify, fallback_summaries])

/-- C6: whenever the API call raises, or the cleaned response text fails JSON
parsing, `summarize_and_classify` returns exactly the fallback records — one
per input repository, in input order — each with category "other" and with
summary equal to the repository's description truncated to 50 characters plus
"..." when the description is longer than 50 characters, the full description
otherwise. -/
theorem C6_degraded_path (loads : String → Option JValue) (repos : List RepoIn)
    (api : ApiOutcome)
    (h : api = .raises ∨
      ∃ t, api = .responds t ∧ loads (cleanResponseText t) = none) :
    summarize_and_classify loads repos api = fallback_summaries repos
    ∧ (summarize_and_classify loads repos api).length = repos.length
    ∧ ∀ repo ∈ repos,
        (fallbackRecord repo).lookup "category" = some (.str "other") ∧
        (fallbackRecord repo).lookup "summary" =
          some (.str (if repo.description.length > 50
                      then repo.description.take 50 ++ "..."
                      else repo.description)) := by
  have hmain : summarize_and_classify loads repos api = fallback_summaries repos := by
    rcases h with rfl | ⟨t, rfl, hl⟩
    · cases repos with
      | nil => rfl
      | cons r rs => rfl
    · cases repos with
      | nil => rfl
      | cons r rs =>
        show parse_batch_response loads t (r :: rs) = _
        unfold parse_batch_response
        rw [hl]
  refine ⟨hmain, ?_, ?_⟩
  · rw [hmain]
    simp [fallback_summaries]
  · intro repo _
    exact ⟨rfl, rfl⟩

/-- C6 witness: a concrete degraded run over one repository with a
60-character description. -/
theorem C6_witness :
    summarize_and_classify (fun _ => none) [repoLong] .raises =
      fallback_summaries [repoLong]
    ∧ (summarize_and_classify (fun _ => none) [repoLong] .raises).length =
        [repoLong].length
    ∧ ∀ repo ∈ [repoLong],
        (fallbackRecord repo).lookup "category" = some (.str "other") ∧
        (fallbackRecord repo).lookup "summary" =
          some (.str (if repo.description.length > 50
                      then repo.description.take 50 ++ "..."
                      else repo.description)) :=
  C6_degraded_path (fun _ => none) [repoLong] .raises (Or.inl rfl)

/-! ## Claim C1 — dedup correctness of the engine's top picks -/

/-- The engine's `top_20` is the enriched working set filtered against the
notified window and truncated to 20 (definitional unfolding of
`calculate_trends`). -/
theorem calculate_trends_top20_eq (store : Store) (entries : List RawEntry)
    (today : Nat) (emap : List (String × Detail)) (d : Nat) :
    (calculate_trends store entries today emap d).1.top_20 =
      ((entries.map (fun r => enrich_entry emap r
          (r.stars - prev_stars (get_previous_snapshot store today)
            r.repo_name r.stars))).filter
        (fun e => decide
          (e.repo_name ∉ get_notified_repo_names store (today - d)))).take 20 := rfl

/-- C1: for every run, no repository whose name is in
`get_notified_repo_names(today - deduplicate_days)` appears in the `top_20`
list of the `TrendResult` returned by `calculate_trends`. -/
theorem C1_top20_dedup (store : Store) (entries : List RawEntry) (today : Nat)
    (emap : List (String × Detail)) (d : Nat) (e : Entry)
    (h : e ∈ (calculate_trends store entries today emap d).1.top_20) :
    e.repo_name ∉ get_notified_repo_names store (today - d) := by
  rw [calculate_trends_top20_eq] at h
  have h1 := List.take_subset _ _ h
  have h2 := List.mem_filter.mp h1
  exact of_decide_eq_true h2.2

/-- C1 witness: with a store that notified "x/y" on day 9, a dedup window of
7 days and today = 10, the entry for "a/b" is in `top_20` and its name is not
in the notified window. -/
theorem C1_witness :
    (enrich_entry [] raw0 0).repo_name ∉ get_notified_repo_names store0 (10 - 7) :=
  C1_top20_dedup store0 [rawX, raw0] 10 [] 7 (enrich_entry [] raw0 0) (by decide)

/-! ## Claim C2 — recorded names versus names shown in the digest -/

/-- C2 counterexample: with eleven entries in `top_20` (and nothing else),
the driver records all eleven names but the digest renders only the first
ten, so the recorded set and the shown set differ ("o/r11" is recorded but
not shown). -/
theorem C2_cex :
    ¬ ∀ n, n ∈ recordedNames cexT ↔ n ∈ reportShownNames cexT := by
  intro h
  exact absurd ((h "o/r11").mp (by decide)) (by decide)

/-- C2 (amended): the driver records exactly the `repo_name`s of `top_20`;
the digest's top-picks section shows only the first ten of them, so every
shown top-pick name is recorded, and every recorded name is either shown in
the digest or belongs to an entry of `top_20` beyond the tenth (the digest's
rising and new-entry sections may additionally show names that are never
recorded). -/
theorem C2_recorded_vs_shown (t : TrendResult) :
    recordedNames t = t.top_20.map Entry.repo_name
    ∧ (∀ n ∈ (t.top_20.take 10).map Entry.repo_name, n ∈ recordedNames t)
    ∧ (∀ n ∈ recordedNames t,
        n ∈ reportShownNames t ∨ n ∈ (t.top_20.drop 10).map Entry.repo_name) := by
  refine ⟨rfl, ?_, ?_⟩
  · intro n hn
    rcases List.mem_map.mp hn with ⟨e, he, rfl⟩
    exact List.mem_map_of_mem _ (List.take_subset _ _ he)
  · intro n hn
    rcases List.mem_map.mp hn with ⟨e, he, rfl⟩
    rw [← List.take_append_drop 10 t.top_20] at he
    rcases List.mem_append.mp he with h1 | h2
    · refine Or.inl ?_
      unfold reportShownNames
      exact List.mem_append.mpr (Or.inr (List.mem_map_of_mem _ h1))
    · exact Or.inr (List.mem_map_of_mem _ h2)

/-- C2 witness: in the eleven-entry fixture the first shown top-pick name is
recorded. -/
theorem C2_witness : "o/r01" ∈ recordedNames cexT :=
  (C2_recorded_vs_shown cexT).2.1 "o/r01" (by decide)

/-! ## Driver lemmas -/

/-- Effects accumulated before `runAfterSend` are preserved in its trace. -/
theorem runAfterSend_mem_mono (w : World) (effs : List Effect) (e : Effect)
    (h : e ∈ effs) : e ∈ (runAfterSend w effs).2 := by
  cases hw : w.webGen <;> cases hc : w.cleanupStep <;>
    simp [runAfterSend, runStep, hw, hc, List.mem_append, h]

/-- The website-generation call is always attempted once the run reaches
step 8. -/
theorem runAfterSend_generateAll (w : World) (effs : List Effect) :
    Effect.generateAll ∈ (runAfterSend w effs).2 := by
  cases hw : w.webGen <;> cases hc : w.cleanupStep <;>
    simp [runAfterSend, runStep, hw, hc, List.mem_append]

/-- Steps 8 and 9 never add a notification record. -/
theorem runAfterSend_no_record (w : World) (effs : List Effect)
    (h : ∀ ns, Effect.recordNotification ns ∉ effs) (ns : List String) :
    Effect.recordNotification ns ∉ (runAfterSend w effs).2 := by
  cases hw : w.webGen <;> cases hc : w.cleanupStep <;>
    simp [runAfterSend, runStep, hw, hc, List.mem_append, h ns]

/-- `countClose` distributes over append. -/
theorem countClose_append (l1 l2 : List Effect) :
    countClose (l1 ++ l2) = countClose l1 + countClose l2 := by
  induction l1 with
  | nil => simp [countClose]
  | cons e es ih => simp [countClose, ih, Nat.add_assoc]

/-- A trace without `closeDb` counts zero. -/
theorem countClose_eq_zero (l : List Effect) (h : Effect.closeDb ∉ l) :
    countClose l = 0 := by
  induction l with
  | nil => rfl
  | cons e es ih =>
    have he : e ≠ Effect.closeDb := fun hh => h (hh ▸ List.mem_cons_self e es)
    have hes : Effect.closeDb ∉ es := fun hh => h (List.mem_cons_of_mem e hh)
    simp [countClose, he, ih hes]

/-- Once step 8 is reached with no `closeDb` yet in the trace, the database
is closed exactly once. -/
theorem runAfterSend_countClose (w : World) (effs : List Effect)
    (h : Effect.closeDb ∉ effs) : countClose (runAfterSend w effs).2 = 1 := by
  cases hw : w.webGen <;> cases hc : w.cleanupStep <;>
    simp [runAfterSend, runStep, hw, hc, countClose_append,
      countClose_eq_zero _ h, countClose]

/-- A step whose own effect is not `closeDb`, entered with no `closeDb` in
the trace and whose continuation closes exactly once, closes exactly once. -/
theorem runStep_countClose {α : Type} (r : PyResult α) (eff : Effect)
    (effs : List Effect) (k : α → List Effect → Option Nat × List Effect)
    (heff : eff ≠ Effect.closeDb) (h : Effect.closeDb ∉ effs)
    (hk : ∀ a effs1, Effect.closeDb ∉ effs1 → countClose (k a effs1).2 = 1) :
    countClose (runStep r eff effs k).2 = 1 := by
  cases r with
  | ok a =>
    refine hk a _ ?_
    intro hmem
    rcases List.mem_append.mp hmem with hh | hh
    · exact h hh
    · exact heff (List.mem_singleton.mp hh).symm
  | raise =>
    simp [runStep, countClose_append, countClose_eq_zero _ h, countClose, heff]
  | interrupt =>
    simp [runStep, countClose_append, countClose_eq_zero _ h, countClose, heff]

/-! ## Claims C3, C7, C8 — driver behaviour -/

/-- C3: when the run reaches step 7, a notification record is written if and
only if the Telegram send result reports success and the run's `top_20` is
non-empty; when the send fails, no record is written and the run continues
with website generation. -/
theorem C3_record_iff_success (w : World) (t : TrendResult) (b : Bool)
    (henv : w.env_ok = true) (hinit : w.init = .ok ()) (hf : w.fetch = .ok ())
    (hr : w.readmes = .ok ()) (ha : w.ai = .ok ()) (hs : w.save = .ok ())
    (hc : w.calcStep = .ok t) (hg : w.genHtml = .ok ())
    (hsend : w.send = .ok b) :
    ((∃ ns, Effect.recordNotification ns ∈ (runMain w).2) ↔
      (b = true ∧ t.top_20 ≠ []))
    ∧ (b = false →
        (∀ ns, Effect.recordNotification ns ∉ (runMain w).2)
        ∧ Effect.generateAll ∈ (runMain w).2) := by
  cases b with
  | false =>
    simp only [runMain, runStep, henv, hinit, hf, hr, ha, hs, hc, hg, hsend,
      Bool.not_true, Bool.false_eq_true, if_false, ite_false]
    refine ⟨⟨?_, ?_⟩, ?_⟩
    · rintro ⟨ns, hmem⟩
      exact absurd hmem (runAfterSend_no_record w _ (by intro ns2; simp) ns)
    · rintro ⟨hb, _⟩
      exact absurd hb (by simp)
    · intro _
      exact ⟨fun ns => runAfterSend_no_record w _ (by intro ns2; simp) ns,
        runAfterSend_generateAll w _⟩
  | true =>
    by_cases hemp : recordedNames t = []
    · have h20 : t.top_20 = [] := by
        have := hemp
        unfold recordedNames at this
        exact List.map_eq_nil_iff.mp this
      simp only [runMain, runStep, henv, hinit, hf, hr, ha, hs, hc, hg, hsend,
        hemp, if_true, ite_true]
      refine ⟨⟨?_, ?_⟩, ?_⟩
      · rintro ⟨ns, hmem⟩
        exact absurd hmem (runAfterSend_no_record w _ (by intro ns2; simp) ns)
      · rintro ⟨_, h2⟩
        exact absurd h20 h2
      · intro hb
        exact absurd hb (by simp)
    · have h20 : t.top_20 ≠ [] := by
        intro hh
        exact hemp (by simp [recordedNames, hh])
      simp only [runMain, runStep, henv, hinit, hf, hr, ha, hs, hc, hg, hsend,
        hemp, if_true, ite_true, if_false, ite_false]
      cases hrec : w.record with
      | ok a =>
        refine ⟨⟨fun _ => ⟨by trivial, h20⟩, fun _ => ?_⟩, fun hb => absurd hb (by simp)⟩
        refine ⟨recordedNames t, runAfterSend_mem_mono w _ _ ?_⟩
        exact List.mem_append.mpr (Or.inr (List.mem_singleton.mpr rfl))
      | raise =>
        refine ⟨⟨fun _ => ⟨by trivial, h20⟩, fun _ => ?_⟩, fun hb => absurd hb (by simp)⟩
        exact ⟨recordedNames t, by simp⟩
      | interrupt =>
        refine ⟨⟨fun _ => ⟨by trivial, h20⟩, fun _ => ?_⟩, fun hb => absurd hb (by simp)⟩
        exact ⟨recordedNames t, by simp⟩

/-- C3 witness: in the all-success world with a non-empty `top_20`, a record
is written. -/
theorem C3_witness :
    (∃ ns, Effect.recordNotification ns ∈ (runMain okWorld).2) ↔
      (true = true ∧ t3.top_20 ≠ []) :=
  (C3_record_iff_success okWorld t3 true rfl rfl rfl rfl rfl rfl rfl rfl rfl).1

/-- C7: if any step up to and including trend computation raises an
`Exception`, the driver performs no Telegram send and no website generation
and the run terminates with exit status 1. -/
theorem C7_abort_on_early_failure (w : World) (henv : w.env_ok = true)
    (hinit : w.init = .ok ()) (h : earlyRaise w) :
    (runMain w).1 = some 1 ∧ Effect.sendReport ∉ (runMain w).2
    ∧ Effect.generateAll ∉ (runMain w).2 := by
  rcases h with h1 | ⟨h1, h2⟩ | ⟨h1, h2, h3⟩ | ⟨h1, h2, h3, h4⟩ |
    ⟨h1, h2, h3, h4, h5⟩ <;>
    simp_all [runMain, runStep]

/-- C7 witness: a concrete world in which the AI-analysis step raises. -/
theorem C7_witness :
    (runMain w7).1 = some 1 ∧ Effect.sendReport ∉ (runMain w7).2
    ∧ Effect.generateAll ∉ (runMain w7).2 :=
  C7_abort_on_early_failure w7 rfl rfl (Or.inr (Or.inr (Or.inl ⟨rfl, rfl, rfl⟩)))

/-- C8 counterexample: when `db.init_db()` raises (a `StorageError`, spec §7),
the handle opened by `Database(DB_PATH)` is never closed — `init_db` runs
before the `try`/`finally` in `main.py` — so it is not the case that every
execution that opens the store closes it. -/
theorem C8_cex :
    Effect.openDb ∈ (runMain w8).2 ∧ countClose (runMain w8).2 = 0 := by
  decide

/-- C8 (amended): in every execution that enters `main`'s `try` block (the
configuration check passed and `db.init_db()` succeeded), the database handle
is closed exactly once — on normal completion, on `KeyboardInterrupt` and on
the generic exception path alike. -/
theorem C8_close_once (w : World) (henv : w.env_ok = true)
    (hinit : w.init = .ok ()) : countClose (runMain w).2 = 1 := by
  simp only [runMain, henv, hinit, Bool.not_true, Bool.false_eq_true,
    if_false, ite_false]
  refine runStep_countClose _ _ _ _ (by simp) (by simp) (fun _ e1 h1 => ?_)
  refine runStep_countClose _ _ _ _ (by simp) h1 (fun _ e2 h2 => ?_)
  refine runStep_countClose _ _ _ _ (by simp) h2 (fun _ e3 h3 => ?_)
  refine runStep_countClose _ _ _ _ (by simp) h3 (fun _ e4 h4 => ?_)
  refine runStep_countClose _ _ _ _ (by simp) h4 (fun trends e5 h5 => ?_)
  refine runStep_countClose _ _ _ _ (by simp) h5 (fun _ e6 h6 => ?_)
  refine runStep_countClose _ _ _ _ (by simp) h6 (fun success e7 h7 => ?_)
  cases success with
  | false => simpa using runAfterSend_countClose w e7 h7
  | true =>
    by_cases hemp : recordedNames trends = []
    · simpa [hemp] using runAfterSend_countClose w e7 h7
    · simp only [hemp, if_true, ite_true, if_false, ite_false]
      refine runStep_countClose _ _ _ _ (by simp) h7
        (fun _ e8 h8 => runAfterSend_countClose w e8 h8)

/-- C8 witness: the all-success world closes the store exactly once. -/
theorem C8_witness : countClose (runMain okWorld).2 = 1 :=
  C8_close_once okWorld rfl rfl

/-! ## Claim C9 — site generator coverage -/

/-- C9: every run of `generate_all` writes an index page rendered from the
first 20 entries of `top_20`, a per-day trending page rendered from
`rising_top5`, `new_entries` and `active` together with a `latest.html` copy
carrying identical content, and one page per category of the fixed set, each
populated via `get_repos_by_category` with a limit of 50. -/
theorem C9_generate_all (trends : TrendResult) (date : String)
    (db : String → Nat → List Entry) (year : Nat) :
    (("index.html",
        get_base_html year "Home" (indexBody (trends.top_20.take 20) date)) ∈
      generate_all trends date db year)
    ∧ (∃ c, ("trending/" ++ date ++ ".html", c) ∈ generate_all trends date db year
        ∧ ("trending/latest.html", c) ∈ generate_all trends date db year
        ∧ c = get_base_html year ("Trending - " ++ date)
            (trendingBody trends.rising_top5 (trends.new_entries.take 10)
              trends.active date))
    ∧ (∀ ki ∈ CATEGORIES,
        ("category/" ++ ki.1 ++ ".html",
          get_base_html year ki.2.name (categoryBody ki.2 (db ki.1 50))) ∈
          generate_all trends date db year) := by
  refine ⟨?_, ⟨_, ?_, ?_, rfl⟩, ?_⟩
  · exact List.mem_append.mpr (Or.inl (List.mem_append.mpr (Or.inl
      (List.mem_append.mpr (Or.inl (List.mem_singleton.mpr rfl))))))
  · refine List.mem_append.mpr (Or.inl (List.mem_append.mpr (Or.inl
      (List.mem_append.mpr (Or.inr ?_)))))
    exact List.mem_cons_self _ _
  · refine List.mem_append.mpr (Or.inl (List.mem_append.mpr (Or.inl
      (List.mem_append.mpr (Or.inr ?_)))))
    exact List.mem_cons_of_mem _ (List.mem_singleton.mpr rfl)
  · intro ki hki
    refine List.mem_append.mpr (Or.inl (List.mem_append.mpr (Or.inr ?_)))
    unfold generate_category_pages
    exact List.mem_map.mpr ⟨ki, hki, rfl⟩

/-- C9 witness: the "other" category page of a concrete run. -/
theorem C9_witness :
    ("category/" ++ "other" ++ ".html",
      get_base_html 2025 otherInfo.name (categoryBody otherInfo (db0 "other" 50))) ∈
      generate_all emptyTrends "2025-01-01" db0 2025 :=
  (C9_generate_all emptyTrends "2025-01-01" db0 2025).2.2 ("other", otherInfo)
    (by decide)

/-! ## Claim C10 — totality of the Telegram sender -/

/-- C10: `send_message` and `send_report` always return a dict containing the
"success" key (they are total functions of the call's outcome, so no
exception propagates); with an empty bot token or chat id the result is the
failure dict and no HTTP request is attempted. -/
theorem C10_sender_total (s : TelegramSender) (text parse_mode : String)
    (trends : TrendResult) (date : String) (http : HttpOutcome) :
    hasKey (send_message s text parse_mode http).result "success" = true
    ∧ hasKey (send_report s trends date http).result "success" = true
    ∧ (s.token = "" ∨ s.chat_id = "" →
        (send_message s text parse_mode http).result =
          [("success", .bool false), ("message", .str "配置缺失")]
        ∧ (send_message s text parse_mode http).httpAttempted = false
        ∧ (send_report s trends date http).httpAttempted = false) := by
  have key : ∀ txt pm : String,
      hasKey (send_message s txt pm http).result "success" = true := by
    intro txt pm
    unfold send_message
    split
    · rfl
    · cases http with
      | raises m => rfl
      | responds j =>
        cases j with
        | obj fields =>
          dsimp only
          split
          · rfl
          · rfl
        | null => rfl
        | bool b => rfl
        | num n => rfl
        | str s2 => rfl
        | arr xs => rfl
  have hcfg : s.token = "" ∨ s.chat_id = "" →
      ∀ txt pm : String,
        (send_message s txt pm http).result =
          [("success", .bool false), ("message", .str "配置缺失")]
        ∧ (send_message s txt pm http).httpAttempted = false := by
    intro h txt pm
    have hb : (s.token == "" || s.chat_id == "") = true := by
      rcases h with h | h <;> simp [h]
    unfold send_message
    rw [if_pos hb]
    exact ⟨rfl, rfl⟩
  refine ⟨key text parse_mode, key (format_report trends date) "Markdown", ?_⟩
  intro h
  exact ⟨(hcfg h text parse_mode).1, (hcfg h text parse_mode).2,
    (hcfg h (format_report trends date) "Markdown").2⟩

/-- C10 witness: a sender with an empty token fails without attempting any
HTTP request, for both entry points. -/
theorem C10_witness :
    (send_message sEmpty "hi" "Markdown" (.raises "boom")).result =
      [("success", .bool false), ("message", .str "配置缺失")]
    ∧ (send_message sEmpty "hi" "Markdown" (.raises "boom")).httpAttempted = false
    ∧ (send_report sEmpty emptyTrends "2025-01-01" (.raises "boom")).httpAttempted
        = false :=
  (C10_sender_total sEmpty "hi" "Markdown" emptyTrends "2025-01-01"
    (.raises "boom")).2.2 (Or.inl rfl)
